import Mathlib

/-!
Shallow embedding of `api_v1/api_handler/database.py` from the
`coronavirus-dashboard-api-v1` repository: the query execution and
pagination engine (count caching, continuation-cursor page seeking,
latest-value resolution, response assembly), together with theorems
settling the specification claims about it.

Modelling conventions:
* Python exceptions are an explicit `PyExc` value in an `Except` result.
* The document store (Azure Cosmos) is external: each operation takes the
  store's response to its query, `Except PyExc (List Row)`, as an input
  (`.error e` models the store call or its unpacking raising `e`).
* Rows are field-name/value association lists; machine details (JSON,
  network) are out of scope exactly as in the spec.
-/

set_option synthInstance.maxSize 1024

namespace CovidApi

/-- Python exception kinds that `database.py` can raise or catch.
`notAvailable` is the repository's own `NotAvailable` exception. -/
inductive PyExc where
  | keyError
  | indexError
  | valueError
  | stopIteration
  | nameError
  | notAvailable
deriving DecidableEq, Repr

/-- A store row: an unordered field-to-value mapping, modelled as an
association list. -/
abbrev Row := List (String × String)

/-- A bound query parameter, the Python dict `{"name": n, "value": v}`
flattened to the pair `(n, v)`. -/
abbrev Param := String × String

/-- Re-raise semantics of a Python `try/except` handler that converts the
exception kinds in `caught` to `NotAvailable` and lets every other kind
propagate raw. -/
def handled_exc (caught : List PyExc) (e : PyExc) : PyExc :=
  if e ∈ caught then PyExc.notAvailable else e

/-- Exception kinds named in `except (IndexError, ValueError)` of
`get_count` (database.py lines 117-118). -/
def count_caught : List PyExc := [PyExc.indexError, PyExc.valueError]

/-- Exception kinds named in `except KeyError` of `process_head`
(database.py lines 151-152). -/
def head_caught : List PyExc := [PyExc.keyError]

/-- Exception kinds named in `except (KeyError, IndexError, StopIteration)`
of `process_get` (database.py lines 217-218); `get_latest_available`
names the same three kinds (lines 291-292). -/
def get_caught : List PyExc := [PyExc.keyError, PyExc.indexError, PyExc.stopIteration]

/-- The body of `get_count` (database.py lines 107-120) past the cache:
`count_items = list(container.query_items(...))`, `count = count_items.pop()`,
with `except (IndexError, ValueError): raise NotAvailable()`.
`fetch` is the store's response to the count query. Python's `list.pop()`
removes and returns the LAST element; on an empty list it raises
`IndexError`, which the handler converts to `NotAvailable`. -/
def get_count (fetch : Except PyExc (List Nat)) : Except PyExc Nat :=
  match fetch with
  | Except.error e => Except.error (handled_exc count_caught e)
  | Except.ok rows =>
    match rows.getLast? with
    | none => Except.error PyExc.notAvailable
    | some c => Except.ok c

/-- The body of `process_head` (database.py lines 149-157):
`results = list(items)` under `except KeyError: raise NotAvailable()`,
then `if not len(results): raise NotAvailable()`, then `return list()`. -/
def process_head (fetch : Except PyExc (List Row)) : Except PyExc (List Row) :=
  match fetch with
  | Except.error e => Except.error (handled_exc head_caught e)
  | Except.ok results =>
    if results.length = 0 then Except.error PyExc.notAvailable
    else Except.ok []

/-- The field extracted by the latest-value resolver and named in the
injected refilter clause.
Modelled from the spec: the constant `DATE_PARAM_NAME` lives in
`constants.py`, which is not part of the provided source; the spec
describes the store as date-keyed and the resolver as extracting the
most recent qualifying date, so the constant is the date field name. -/
def DATE_PARAM_NAME : String := "date"

/-- The body of `get_latest_available` (database.py lines 280-292):
`return next(latest)[DATE_PARAM_NAME]` under
`except (KeyError, IndexError, StopIteration): raise NotAvailable()`.
`next` on an empty iterator raises `StopIteration`; a missing field in the
row dict raises `KeyError`; both are in the caught set. -/
def get_latest_available (fetch : Except PyExc (List Row)) : Except PyExc String :=
  match fetch with
  | Except.error e => Except.error (handled_exc get_caught e)
  | Except.ok [] => Except.error (handled_exc get_caught PyExc.stopIteration)
  | Except.ok (row :: _) =>
    match row.lookup DATE_PARAM_NAME with
    | none => Except.error (handled_exc get_caught PyExc.keyError)
    | some v => Except.ok v

/-! ### Count cache (database.py lines 93-120 and 177-182)

`get_count` is wrapped in `functools.lru_cache`. The cache key is the
positional arguments `(query, date)` followed by the keyword-argument
items in dict insertion order. The caller `process_get` builds those
keyword arguments as
`{item["name"]: item["value"] for item in sorted(arguments, key=lambda v: v["name"])}`,
so the insertion order is the name-sorted order of the parameter list.
`lru_cache` memoizes only calls that return normally; a raised exception
is not stored. Capacity eviction (maxsize 2048) is not modelled, as no
claim depends on it. -/

/-- Ascending comparison of parameters by their `name` field, the sort key
`lambda v: v["name"]` of database.py line 180. Python compares strings
lexicographically by code point, which is the lexicographic order on the
character list. -/
def nameLe (p q : Param) : Prop := p.1.toList ≤ q.1.toList

/-- Strict version of `nameLe`, used to show sortedness determines the
sorted list uniquely when names are distinct. -/
def nameLt (p q : Param) : Prop := p.1.toList < q.1.toList

instance : DecidableRel nameLe := fun p q =>
  inferInstanceAs (Decidable (p.1.toList ≤ q.1.toList))

instance : IsTotal Param nameLe := ⟨fun a b => le_total a.1.toList b.1.toList⟩

instance : IsTrans Param nameLe := ⟨fun _ _ _ h h' => le_trans h h'⟩

instance : IsAntisymm Param nameLt :=
  ⟨fun _ _ h h' => absurd h' (lt_asymm h)⟩

/-- Two strings with the same character list are equal. -/
theorem string_toList_injective : ∀ {s t : String}, s.toList = t.toList → s = t := by
  intro s t h
  cases s
  cases t
  simp only [String.toList] at h
  exact congrArg String.mk (by simpa using h)

/-- Python's `sorted(arguments, key=lambda v: v["name"])`: a stable sort of
the parameter list by name (database.py line 180). -/
def sort_params (ps : List Param) : List Param :=
  List.insertionSort nameLe ps

/-- One assignment `d[p.1] = p.2` into a Python dict modelled as an ordered
association list: an existing key keeps its position and gets the new
value, a new key is appended. -/
def dict_insert (d : List Param) (p : Param) : List Param :=
  if d.any (fun q => q.1 = p.1) then d.map (fun q => if q.1 = p.1 then p else q)
  else d ++ [p]

/-- The items, in insertion order, of the Python dict built by a
comprehension over a parameter list. -/
def dict_items (ps : List Param) : List Param :=
  ps.foldl dict_insert []

/-- The dict `arguments_dict` of database.py lines 178-181: parameters are
sorted by name, then inserted into a dict. -/
def arguments_dict (args : List Param) : List Param :=
  dict_items (sort_params args)

/-- The `lru_cache` key of a `get_count(count_query, date, **arguments_dict)`
call: positional arguments then keyword items in dict order. -/
def count_cache_key (query date : String) (args : List Param) :
    String × String × List Param :=
  (query, date, arguments_dict args)

abbrev CacheKey := String × String × List Param

/-- The memo table held by `lru_cache`. Most recent insertions sit at the
front. -/
abbrev Cache := List (CacheKey × Nat)

/-- Cache lookup by key equality. -/
def cache_lookup (c : Cache) (k : CacheKey) : Option Nat :=
  (c.find? (fun e => e.1 = k)).map (fun e => e.2)

/-- A `get_count` call as the caller sees it through `lru_cache`.
`store` gives the document store's (deterministic) response to the count
query for given query text, date and parameters. Returns the result, the
cache after the call, and whether the underlying count query was executed.
A cache hit returns the stored count without executing; a miss executes
`get_count`, and only a normal return is inserted into the cache —
a raised exception leaves the cache unchanged. -/
def get_count_cached (store : String → String → List Param → Except PyExc (List Nat))
    (c : Cache) (query date : String) (args : List Param) :
    Except PyExc Nat × Cache × Bool :=
  let k := count_cache_key query date args
  match cache_lookup c k with
  | some v => (Except.ok v, c, false)
  | none =>
    match get_count (store query date (arguments_dict args)) with
    | Except.ok v => (Except.ok v, (k, v) :: c, true)
    | Except.error e => (Except.error e, c, true)

/-! ### Page seeking (database.py lines 200-218)

The store's `items.by_page(continuation_token=query_hash)` pager is the
deterministic sequence of pages for the query: modelled as the list
`pages : List (List Row)`. `next(paginated_items)` takes the next page or
raises `StopIteration`. -/

/-- The `while page < page_number` loop of database.py lines 209-214
followed by `results = list(res)`. `n` counts the remaining iterations and
`res` holds the Python variable `res`, unbound (`none`) before the first
iteration. When the loop finishes with `res` never assigned — which
happens exactly when the requested page number is 0 — reading `res`
raises an unbound-local `NameError`. -/
def seek_loop : List (List Row) → Nat → Option (List Row) → Except PyExc (List Row)
  | _, 0, none => Except.error PyExc.nameError
  | _, 0, some r => Except.ok r
  | [], _ + 1, _ => Except.error PyExc.stopIteration
  | p :: rest, n + 1, _ => seek_loop rest n (some p)

/-- The page-selection step of database.py lines 208-216: with a requested
page number run the seek loop, otherwise take the first page
(`results = list(next(paginated_items))`). Exceptions are still raw here;
the surrounding `try` is applied by `fetch_page_rows`. -/
def seek (pages : List (List Row)) : Option Nat → Except PyExc (List Row)
  | some n => seek_loop pages n none
  | none =>
    match pages with
    | [] => Except.error PyExc.stopIteration
    | p :: _ => Except.ok p

/-- The whole `try` block of database.py lines 203-218: obtain the seeded
pager (`pagesFetch`, `.error e` when the store call itself raises), seek
to the requested page, and convert `KeyError`, `IndexError` and
`StopIteration` to `NotAvailable`; every other exception kind — including
the `NameError` for page number 0 — propagates raw. -/
def fetch_page_rows (pagesFetch : Except PyExc (List (List Row)))
    (page_number : Option Nat) : Except PyExc (List Row) :=
  let raw := match pagesFetch with
    | Except.error e => Except.error e
    | Except.ok pages => seek pages page_number
  match raw with
  | Except.error e => Except.error (handled_exc get_caught e)
  | Except.ok r => Except.ok r

/-! ### Response assembly (database.py lines 220-257) -/

/-- A pagination link, the f-string `f"{url}&page={n}"` of database.py
lines 234-244. `url` is the request URL reduced to `/v1/data?<query>` with
any existing page parameter stripped (lines 229-231). -/
def page_link (url : String) (n : Nat) : String :=
  url ++ "&page=" ++ Nat.repr n

/-- The `pagination` block of the JSON envelope (database.py lines
232-246). -/
structure Pagination where
  current : String
  next : Option String
  previous : Option String
  first : String
  last : String
deriving DecidableEq, Repr

/-- The JSON envelope of database.py lines 221-247. -/
structure JsonEnvelope where
  length : Nat
  maxPageLimit : Nat
  data : List Row
  pagination : Option Pagination
deriving DecidableEq, Repr

/-- A `process_get` response: the JSON envelope, or CSV text. The pandas
rendering of rows to delimited text is an external library call; the CSV
branch carries the rows it renders. -/
inductive Response where
  | json (env : JsonEnvelope)
  | csv (rows : List Row)
deriving DecidableEq, Repr

/-- Python's `math.ceil(count / size)` on non-negative integers. -/
def ceil_div (count size : Nat) : Nat :=
  (count + size - 1) / size

/-- The pagination-links block of database.py lines 232-246, for current
page `page_number` and `total_pages = ceil(count / MAX_ITEMS_PER_RESPONSE)`:
`next` is page `page_number + 1` when `page_number < total_pages` and null
otherwise; `previous` is page `page_number - 1` when `page_number - 1 > 0`
and null otherwise. -/
def build_pagination (url : String) (page_number total_pages : Nat) : Pagination :=
  { current := page_link url page_number
    next := if page_number < total_pages then some (page_link url (page_number + 1)) else none
    previous := if page_number - 1 > 0 then some (page_link url (page_number - 1)) else none
    first := page_link url 1
    last := page_link url total_pages }

/-- The response-producing part of `process_get` (database.py lines
160-257) after query construction. Inputs stand for the results of the
external calls the function makes, in source order:
`countRes` is `get_count(count_query, date, **arguments_dict)` (line 182;
its cached behaviour is `get_count_cached` above — an exception from it
propagates out of `process_get` unhandled); `pagesFetch` is the seeded
`by_page` pager (lines 191-206); `page_number` comes from
`tokens.page_number` (lines 200-201); `max_items` is the `max_items`
argument and `max_per` the constant `MAX_ITEMS_PER_RESPONSE` used both as
page size and in `total_pages` (line 228); `url` is the stripped request
URL. A non-CSV formatter returns the JSON envelope even for zero rows;
the CSV branch raises `NotAvailable` on zero rows. -/
def process_get (url : String) (formatter : String) (page_number : Option Nat)
    (max_items max_per : Nat) (countRes : Except PyExc Nat)
    (pagesFetch : Except PyExc (List (List Row))) : Except PyExc Response :=
  match countRes with
  | Except.error e => Except.error e
  | Except.ok count =>
    match fetch_page_rows pagesFetch page_number with
    | Except.error e => Except.error e
    | Except.ok results =>
      if formatter ≠ "csv" then
        Except.ok (Response.json
          { length := results.length
            maxPageLimit := max_items
            data := results
            pagination :=
              page_number.map (fun p => build_pagination url p (ceil_div count max_per)) })
      else if results.length = 0 then Except.error PyExc.notAvailable
      else Except.ok (Response.csv results)

/-! ### The blake2b hash (used by `get_data`, database.py lines 350-351)

`hashlib.blake2b` is Python standard library, external to the repository;
it is embedded here following RFC 7693 (unkeyed, single-block messages,
which covers every use in database.py's `get_data`: the message is the
constant field name). The implementation below reproduces CPython's
digests (checked against the `blake2b(b"date", digest_size=6)` value the
running code computes). -/

/-- Rotate a 64-bit word right by `n` bits. -/
def rotr64 (x n : Nat) : Nat :=
  ((x >>> n) ||| (x <<< (64 - n))) % 2 ^ 64

/-- Addition modulo 2^64. -/
def add64 (a b : Nat) : Nat := (a + b) % 2 ^ 64

/-- The blake2b initialization vector (RFC 7693 section 2.6). -/
def blakeIV : List Nat :=
  [0x6a09e667f3bcc908, 0xbb67ae8584caa73b, 0x3c6ef372fe94f82b, 0xa54ff53a5f1d36f1,
   0x510e527fade682d1, 0x9b05688c2b3e6c1f, 0x1f83d9abfb41bd6b, 0x5be0cd19137e2179]

/-- The blake2b message schedule (RFC 7693 section 2.7). -/
def blakeSigma : List (List Nat) :=
  [[0, 1, 2, 3, 4, 5, 6, 7, 8, 9, 10, 11, 12, 13, 14, 15],
   [14, 10, 4, 8, 9, 15, 13, 6, 1, 12, 0, 2, 11, 7, 5, 3],
   [11, 8, 12, 0, 5, 2, 15, 13, 10, 14, 3, 6, 7, 1, 9, 4],
   [7, 9, 3, 1, 13, 12, 11, 14, 2, 6, 5, 10, 4, 0, 15, 8],
   [9, 0, 5, 7, 2, 4, 10, 15, 14, 1, 11, 12, 6, 8, 3, 13],
   [2, 12, 6, 10, 0, 11, 8, 3, 4, 13, 7, 5, 15, 14, 1, 9],
   [12, 5, 1, 15, 14, 13, 4, 10, 0, 7, 6, 3, 9, 2, 8, 11],
   [13, 11, 7, 14, 12, 1, 3, 9, 5, 0, 15, 4, 8, 6, 2, 10],
   [6, 15, 14, 9, 11, 3, 0, 8, 12, 2, 13, 7, 1, 4, 10, 5],
   [10, 2, 8, 4, 7, 6, 1, 5, 15, 11, 9, 14, 3, 12, 13, 0]]

/-- Word access into a 16-word working vector. -/
def lget (l : List Nat) (i : Nat) : Nat := l.getD i 0

/-- The blake2b mixing function G (RFC 7693 section 3.1). -/
def blakeG (v : List Nat) (a b c d x y : Nat) : List Nat :=
  let va := add64 (add64 (lget v a) (lget v b)) x
  let vd := rotr64 ((lget v d) ^^^ va) 32
  let vc := add64 (lget v c) vd
  let vb := rotr64 ((lget v b) ^^^ vc) 24
  let va := add64 (add64 va vb) y
  let vd := rotr64 (vd ^^^ va) 16
  let vc := add64 vc vd
  let vb := rotr64 (vb ^^^ vc) 63
  ((((v.set a va).set b vb).set c vc).set d vd)

/-- One round of the blake2b compression function. -/
def blakeRound (m : List Nat) (v : List Nat) (i : Nat) : List Nat :=
  let s := blakeSigma.getD (i % 10) []
  let g := fun v a b c d j k => blakeG v a b c d (lget m (lget s j)) (lget m (lget s k))
  let v := g v 0 4 8 12 0 1
  let v := g v 1 5 9 13 2 3
  let v := g v 2 6 10 14 4 5
  let v := g v 3 7 11 15 6 7
  let v := g v 0 5 10 15 8 9
  let v := g v 1 6 11 12 10 11
  let v := g v 2 7 8 13 12 13
  let v := g v 3 4 9 14 14 15
  v

/-- The blake2b compression function F (RFC 7693 section 3.2). -/
def blakeCompress (h : List Nat) (m : List Nat) (t : Nat) (last : Bool) : List Nat :=
  let v := h ++ blakeIV
  let v := v.set 12 ((lget v 12) ^^^ (t % 2 ^ 64))
  let v := v.set 13 ((lget v 13) ^^^ (t / 2 ^ 64))
  let v := if last then v.set 14 ((lget v 14) ^^^ (2 ^ 64 - 1)) else v
  let v := (List.range 12).foldl (blakeRound m) v
  (List.range 8).map (fun i => ((lget h i) ^^^ (lget v i)) ^^^ (lget v (i + 8)))

/-- Little-endian packing of a (zero-padded) 128-byte block into 16
64-bit words. -/
def bytesToWords (bytes : List Nat) : List Nat :=
  (List.range 16).map (fun i =>
    (List.range 8).foldr (fun j acc => acc * 256 + bytes.getD (8 * i + j) 0) 0)

/-- Unkeyed blake2b of a message of at most 128 bytes (one block), as a
list of `digest_size` output bytes (RFC 7693 section 3.3). -/
def blake2b (digest_size : Nat) (msg : List Nat) : List Nat :=
  let h0 := blakeIV.set 0 ((lget blakeIV 0) ^^^ 0x01010000 ^^^ digest_size)
  let h := blakeCompress h0 (bytesToWords msg) msg.length true
  (List.range digest_size).map (fun i => (lget h (i / 8)) / 256 ^ (i % 8) % 256)

/-- Lower-case hex digit. -/
def hexChar (n : Nat) : Char :=
  if n < 10 then Char.ofNat (48 + n) else Char.ofNat (87 + n)

/-- Two-digit lower-case hex rendering of one byte. -/
def byteHex (b : Nat) : String :=
  String.mk [hexChar (b / 16), hexChar (b % 16)]

/-- Python's `.hexdigest()`: lower-case hex of the digest bytes. -/
def hexdigest (bytes : List Nat) : String :=
  String.join (bytes.map byteHex)

/-- Python's `str.encode()` for the ASCII strings used here (for ASCII,
UTF-8 bytes coincide with code points). -/
def str_bytes (s : String) : List Nat :=
  s.data.map Char.toNat

/-! ### Latest-value refiltering in `get_data` (database.py lines 341-358) -/

/-- The hash suffix of the injected parameter name, database.py line 350:
`blake2b(DATE_PARAM_NAME.encode(), digest_size=6).hexdigest()`. Note the
hashed message is the constant `DATE_PARAM_NAME`, not the request's
only-latest-by field. -/
def injected_suffix : String :=
  hexdigest (blake2b 6 (str_bytes DATE_PARAM_NAME))

/-- The injected parameter name, database.py line 351:
`f"@{ DATE_PARAM_NAME }{ name }"`. It is one fixed string, independent of
the request. -/
def injected_name : String :=
  "@" ++ DATE_PARAM_NAME ++ injected_suffix

/-- The refilter step of database.py lines 353-358: extend the filter text
with the equality clause on the date field and append the injected
parameter bound to the resolved latest value. -/
def latest_refilter (filters : String) (args : List Param) (value : String) :
    String × List Param :=
  (filters ++ " AND c." ++ DATE_PARAM_NAME ++ " = " ++ injected_name,
   args ++ [(injected_name, value)])

deriving instance DecidableEq for Except

/-! ### Spec-side description for the page-seek refinement claim -/

/-- Spec-side definition, following the claim's words for comparison with
the embedded seek loop: fetch pages 1..n sequentially from the seeded
cursor (at most `n` pages are available to fetch), discard pages 1..n-1,
and return page n; `none` when the cursor is exhausted before page n. -/
def fetch_sequentially_and_discard (pages : List (List Row)) (n : Nat) :
    Option (List Row) :=
  ((pages.take n).drop (n - 1)).head?

/-! ## Theorems for the claims -/

/-- C7: a HEAD-style existence check whose query yields zero rows fails
with `NotAvailable`; with at least one row it succeeds, and on success it
always returns the empty result (the fetched rows are discarded), so
success is signalled only by the absence of an error. -/
theorem C7_process_head_existence (rows : List Row) :
    (rows = [] → process_head (Except.ok rows) = Except.error PyExc.notAvailable) ∧
    (rows ≠ [] → process_head (Except.ok rows) = Except.ok []) := by
  constructor
  · intro h; subst h; rfl
  · intro h
    cases rows with
    | nil => exact absurd rfl h
    | cons r rest => rfl

/-- Witness for C7 at concrete inputs: the empty response fails, a
one-row response succeeds with the empty result. -/
theorem C7_process_head_existence_witness :
    process_head (Except.ok ([] : List Row)) = Except.error PyExc.notAvailable ∧
    process_head (Except.ok [[("areaName", "Yorkshire")]]) = Except.ok [] :=
  ⟨(C7_process_head_existence []).1 rfl,
   (C7_process_head_existence [[("areaName", "Yorkshire")]]).2 (by decide)⟩

/-- C10: a requested page number of 0 makes the seek loop run zero
iterations, so reading the loop variable raises an unbound-local
`NameError`, which is not among the exception kinds the `try` block
catches and is not converted to `NotAvailable`; the uniform
`NotAvailable` failure surface of the paged fetch therefore presupposes a
page number of at least 1. The same `NameError` propagates out of
`process_get`. -/
theorem C10_page_zero_name_error (pages : List (List Row)) (url formatter : String)
    (max_items max_per count : Nat) :
    fetch_page_rows (Except.ok pages) (some 0) = Except.error PyExc.nameError ∧
    PyExc.nameError ∉ get_caught ∧
    PyExc.nameError ≠ PyExc.notAvailable ∧
    process_get url formatter (some 0) max_items max_per (Except.ok count)
      (Except.ok pages) = Except.error PyExc.nameError := by
  have hseek : seek_loop pages 0 none = Except.error PyExc.nameError := by
    cases pages <;> rfl
  have hfetch : fetch_page_rows (Except.ok pages) (some 0) =
      Except.error PyExc.nameError := by
    simp [fetch_page_rows, seek, hseek, handled_exc, get_caught]
  refine ⟨hfetch, by decide, by decide, ?_⟩
  simp [process_get, hfetch]

/-- C6 counterexample: the claim says every operation converts lookup
(`KeyError`), index and value errors raised during unpacking to
`NotAvailable`; but `get_count` names only `IndexError` and `ValueError`
in its handler, so a `KeyError` raised during its unpacking propagates
raw. -/
theorem C6_counterexample :
    get_count (Except.error PyExc.keyError) = Except.error PyExc.keyError ∧
    PyExc.keyError ≠ PyExc.notAvailable := by
  decide

/-- C6 amended: each operation converts exactly its own caught set of
exception kinds to `NotAvailable` and propagates every other kind raw:
the existence check catches only `KeyError`; the count unpacking catches
only `IndexError` and `ValueError`; the paged data fetch and the
latest-value lookup catch `KeyError`, `IndexError` and `StopIteration`.
No operation converts every lookup/index/value error. -/
theorem C6_per_operation_handlers (e : PyExc) (page_number : Option Nat) :
    (process_head (Except.error e) =
      Except.error (if e = PyExc.keyError then PyExc.notAvailable else e)) ∧
    (get_count (Except.error e) =
      Except.error
        (if e = PyExc.indexError ∨ e = PyExc.valueError then PyExc.notAvailable else e)) ∧
    (fetch_page_rows (Except.error e) page_number =
      Except.error
        (if e = PyExc.keyError ∨ e = PyExc.indexError ∨ e = PyExc.stopIteration
         then PyExc.notAvailable else e)) ∧
    (get_latest_available (Except.error e) =
      Except.error
        (if e = PyExc.keyError ∨ e = PyExc.indexError ∨ e = PyExc.stopIteration
         then PyExc.notAvailable else e)) := by
  cases e <;>
    simp [process_head, get_count, fetch_page_rows, get_latest_available,
      handled_exc, head_caught, count_caught, get_caught]

/-- C2 counterexample: the claim says a count query yielding more than one
row fails with `NotAvailable`; but `count_items.pop()` returns the last
element of a multi-element list without raising, so a two-row response
succeeds with the second row as the count. -/
theorem C2_counterexample :
    get_count (Except.ok [5, 7]) = Except.ok 7 ∧
    (Except.ok 7 : Except PyExc Nat) ≠ Except.error PyExc.notAvailable := by
  decide

/-- C2 amended: if the count query yields zero rows, or raises an index or
value error during unpacking, `get_count` fails with `NotAvailable`;
if it yields one or more rows it returns the last row as the count (for
the intended single-row count response this is the single count value). -/
theorem C2_get_count_unpacking (rows : List Nat) (c : Nat) (e : PyExc) :
    (rows = [] → get_count (Except.ok rows) = Except.error PyExc.notAvailable) ∧
    (rows.getLast? = some c → get_count (Except.ok rows) = Except.ok c) ∧
    (e ∈ count_caught → get_count (Except.error e) = Except.error PyExc.notAvailable) := by
  refine ⟨?_, ?_, ?_⟩
  · intro h; subst h; rfl
  · intro h; simp [get_count, h]
  · intro h; simp [get_count, handled_exc, h]

/-- Witness for C2 at concrete inputs: an empty response and a caught
`IndexError` fail with `NotAvailable`; the two-row response `[4, 9]`
returns 9. -/
theorem C2_get_count_unpacking_witness :
    get_count (Except.ok ([] : List Nat)) = Except.error PyExc.notAvailable ∧
    get_count (Except.ok [4, 9]) = Except.ok 9 ∧
    get_count (Except.error PyExc.indexError) = Except.error PyExc.notAvailable :=
  ⟨(C2_get_count_unpacking [] 0 PyExc.indexError).1 rfl,
   (C2_get_count_unpacking [4, 9] 9 PyExc.indexError).2.1 (by decide),
   (C2_get_count_unpacking [] 0 PyExc.indexError).2.2 (by decide)⟩

/-- C8: when the data fetch of a GET request yields zero rows, a CSV
format request fails with `NotAvailable`, while any other format succeeds
with a JSON envelope of length 0 and empty data. -/
theorem C8_empty_results (url formatter : String) (page_number : Option Nat)
    (max_items max_per count : Nat) (pagesFetch : Except PyExc (List (List Row)))
    (h : fetch_page_rows pagesFetch page_number = Except.ok []) :
    (formatter = "csv" →
      process_get url formatter page_number max_items max_per (Except.ok count)
        pagesFetch = Except.error PyExc.notAvailable) ∧
    (formatter ≠ "csv" →
      process_get url formatter page_number max_items max_per (Except.ok count)
        pagesFetch =
        Except.ok (Response.json
          { length := 0
            maxPageLimit := max_items
            data := []
            pagination :=
              page_number.map
                (fun p => build_pagination url p (ceil_div count max_per)) })) := by
  constructor
  · intro hf; simp [process_get, h, hf]
  · intro hf; simp [process_get, h, hf]

/-- Witness for C8 at a concrete input: a cursor whose only page is empty,
requested as CSV and as JSON. -/
theorem C8_empty_results_witness :
    process_get "/v1/data?areaType=nation" "csv" none 1000 1000 (Except.ok 0)
      (Except.ok [[]]) = Except.error PyExc.notAvailable ∧
    process_get "/v1/data?areaType=nation" "json" none 1000 1000 (Except.ok 0)
      (Except.ok [[]]) =
      Except.ok (Response.json
        { length := 0, maxPageLimit := 1000, data := [], pagination := none }) :=
  ⟨(C8_empty_results "/v1/data?areaType=nation" "csv" none 1000 1000 0
      (Except.ok [[]]) (by decide)).1 rfl,
   (C8_empty_results "/v1/data?areaType=nation" "json" none 1000 1000 0
      (Except.ok [[]]) (by decide)).2 (by decide)⟩

/-- C4: for a GET request with requested page `p`, count `c` and page size
`s`, the pagination block uses `totalPages = ceil(c / s)` (characterized
by `c ≤ s * totalPages < c + s`); `next` is page `p + 1` and is null
exactly when `p ≥ totalPages`; `previous` is page `p - 1` and is null
exactly when `p - 1 ≤ 0`; `first` targets page 1 (so for `p = 1` the
`current` and `first` links are identical) and `last` targets
`totalPages`; in particular for `c = 25`, `s = 10`: `totalPages = 3`,
page 1 has null `previous` and present `next`, page 3 has null `next` and
present `previous`. -/
theorem C4_pagination_links (url : String) (p c s : Nat) (hs : 0 < s) :
    (c ≤ s * ceil_div c s ∧ s * ceil_div c s < c + s) ∧
    ((build_pagination url p (ceil_div c s)).next = none ↔ ceil_div c s ≤ p) ∧
    (p < ceil_div c s →
      (build_pagination url p (ceil_div c s)).next = some (page_link url (p + 1))) ∧
    ((build_pagination url p (ceil_div c s)).previous = none ↔ p - 1 = 0) ∧
    (0 < p - 1 →
      (build_pagination url p (ceil_div c s)).previous = some (page_link url (p - 1))) ∧
    (build_pagination url p (ceil_div c s)).first = page_link url 1 ∧
    (build_pagination url p (ceil_div c s)).last = page_link url (ceil_div c s) ∧
    (p = 1 →
      (build_pagination url p (ceil_div c s)).current =
        (build_pagination url p (ceil_div c s)).first) ∧
    (ceil_div 25 10 = 3 ∧
     (build_pagination url 1 (ceil_div 25 10)).previous = none ∧
     (build_pagination url 1 (ceil_div 25 10)).next = some (page_link url 2) ∧
     (build_pagination url 3 (ceil_div 25 10)).next = none ∧
     (build_pagination url 3 (ceil_div 25 10)).previous = some (page_link url 2) ∧
     (build_pagination url 1 (ceil_div 25 10)).current =
       (build_pagination url 1 (ceil_div 25 10)).first) := by
  refine ⟨?_, ?_, ?_, ?_, ?_, rfl, rfl, ?_, rfl, rfl, rfl, rfl, rfl, rfl⟩
  · have h := Nat.div_add_mod (c + s - 1) s
    have h2 := Nat.mod_lt (c + s - 1) hs
    show c ≤ s * ((c + s - 1) / s) ∧ s * ((c + s - 1) / s) < c + s
    set x := s * ((c + s - 1) / s) with hx
    set r := (c + s - 1) % s with hr
    omega
  · by_cases h : p < ceil_div c s
    · simp [build_pagination, h]
    · simp [build_pagination, h]
      omega
  · intro h; simp [build_pagination, h]
  · by_cases h : 0 < p - 1
    · simp [build_pagination, h]
      omega
    · simp [build_pagination, h]
      omega
  · intro h; simp [build_pagination, h]
  · intro h; subst h; rfl

/-- Witness for C4 at the claim's concrete input `c = 25`, `s = 10`. -/
theorem C4_pagination_links_witness :
    ceil_div 25 10 = 3 ∧
    (build_pagination "/v1/data?areaType=nation" 1 (ceil_div 25 10)).previous = none ∧
    (build_pagination "/v1/data?areaType=nation" 3 (ceil_div 25 10)).next = none :=
  ⟨(C4_pagination_links "/v1/data?areaType=nation" 1 25 10 (by decide)).2.2.2.2.2.2.2.2.1,
   (C4_pagination_links "/v1/data?areaType=nation" 1 25 10 (by decide)).2.2.2.2.2.2.2.2.2.1,
   (C4_pagination_links "/v1/data?areaType=nation" 1 25 10 (by decide)).2.2.2.2.2.2.2.2.2.2.2.1⟩

/-- Advancing the seek loop `n + 1` times returns the page at offset `n`
of the seeded cursor, or raises `StopIteration` when the cursor is
exhausted first. -/
theorem seek_loop_succ_eq (n : Nat) : ∀ (pages : List (List Row)) (acc : Option (List Row)),
    seek_loop pages (n + 1) acc =
      match (pages.drop n).head? with
      | none => Except.error PyExc.stopIteration
      | some pg => Except.ok pg := by
  induction n with
  | zero =>
    intro pages acc
    cases pages with
    | nil => simp [seek_loop]
    | cons pg rest => simp [seek_loop]
  | succ k ih =>
    intro pages acc
    cases pages with
    | nil => simp [seek_loop]
    | cons pg rest =>
      rw [List.drop_succ_cons]
      rw [show seek_loop (pg :: rest) (k + 1 + 1) acc =
        seek_loop rest (k + 1) (some pg) by simp [seek_loop]]
      exact ih rest (some pg)

/-- The spec-side sequential fetch-and-discard of page `m + 1` is the page
at offset `m` of the cursor. -/
theorem fetch_seq_succ (m : Nat) : ∀ pages : List (List Row),
    fetch_sequentially_and_discard pages (m + 1) = (pages.drop m).head? := by
  induction m with
  | zero => intro pages; cases pages <;> rfl
  | succ k ih =>
    intro pages
    cases pages with
    | nil => rfl
    | cons pg rest =>
      have h := ih rest
      simp only [fetch_sequentially_and_discard, Nat.add_sub_cancel] at h ⊢
      simp only [List.take_succ_cons, List.drop_succ_cons]
      exact h

/-- C1: with no requested page number the paged fetch returns exactly the
first page of the seeded cursor; with a requested 1-indexed page number
`n` it returns exactly the rows obtained by fetching pages 1..n
sequentially from the same seeded cursor and discarding pages 1..n-1
(the spec-side `fetch_sequentially_and_discard`), and it fails with
`NotAvailable` when the cursor is exhausted before page `n`. The cursor
is a function of the query alone, so both sides read the same page
sequence (determinism of the seeded cursor). -/
theorem C1_page_seek_refinement (pages : List (List Row)) (n : Nat) (r : List Row)
    (hn : 1 ≤ n) :
    (fetch_page_rows (Except.ok pages) none = Except.ok r ↔ pages.head? = some r) ∧
    (fetch_page_rows (Except.ok pages) (some n) = Except.ok r ↔
      fetch_sequentially_and_discard pages n = some r) ∧
    (fetch_sequentially_and_discard pages n = none →
      fetch_page_rows (Except.ok pages) (some n) = Except.error PyExc.notAvailable) := by
  obtain ⟨m, rfl⟩ : ∃ m, n = m + 1 := ⟨n - 1, by omega⟩
  refine ⟨?_, ?_, ?_⟩
  · cases pages <;> simp [fetch_page_rows, seek, handled_exc, get_caught]
  · rw [fetch_seq_succ]
    rw [show fetch_page_rows (Except.ok pages) (some (m + 1)) =
        (match (seek_loop pages (m + 1) none) with
          | Except.error e => Except.error (handled_exc get_caught e)
          | Except.ok r => Except.ok r) from rfl]
    rw [seek_loop_succ_eq m pages none]
    cases hd : (pages.drop m).head? <;> simp [handled_exc, get_caught]
  · intro h
    rw [fetch_seq_succ] at h
    rw [show fetch_page_rows (Except.ok pages) (some (m + 1)) =
        (match (seek_loop pages (m + 1) none) with
          | Except.error e => Except.error (handled_exc get_caught e)
          | Except.ok r => Except.ok r) from rfl]
    rw [seek_loop_succ_eq m pages none, h]
    simp [handled_exc, get_caught]

/-- Witness for C1 at a concrete input: seeking page 2 of a three-page
cursor returns the second page, which equals the sequential
fetch-and-discard result. -/
theorem C1_page_seek_refinement_witness :
    fetch_page_rows
      (Except.ok [[[("date", "2020-11-01")]], [[("date", "2020-11-02")]],
        [[("date", "2020-11-03")]]]) (some 2) =
      Except.ok [[("date", "2020-11-02")]] :=
  (C1_page_seek_refinement _ 2 _ (by decide)).2.1.mpr (by decide)

/-- Sorting by name determines the result uniquely on parameter lists with
pairwise-distinct names: two permutations of each other sort to the same
list. -/
theorem sort_params_perm_eq (P1 P2 : List Param) (hperm : P1.Perm P2)
    (hnodup : (P1.map Prod.fst).Nodup) : sort_params P1 = sort_params P2 := by
  have h1 : (sort_params P1).Perm P1 := List.perm_insertionSort nameLe P1
  have h2 : (sort_params P2).Perm P2 := List.perm_insertionSort nameLe P2
  have hp : (sort_params P1).Perm (sort_params P2) :=
    h1.trans (hperm.trans h2.symm)
  have hnodup2 : (P2.map Prod.fst).Nodup := ((hperm.map Prod.fst).nodup_iff).mp hnodup
  have hn1 : ((sort_params P1).map Prod.fst).Nodup :=
    ((h1.map Prod.fst).nodup_iff).mpr hnodup
  have hn2 : ((sort_params P2).map Prod.fst).Nodup :=
    ((h2.map Prod.fst).nodup_iff).mpr hnodup2
  have hs1 : (sort_params P1).Sorted nameLe := List.sorted_insertionSort nameLe P1
  have hs2 : (sort_params P2).Sorted nameLe := List.sorted_insertionSort nameLe P2
  have hne1 : (sort_params P1).Pairwise (fun a b => a.1 ≠ b.1) := List.pairwise_map.mp hn1
  have hne2 : (sort_params P2).Pairwise (fun a b => a.1 ≠ b.1) := List.pairwise_map.mp hn2
  have hlt1 : (sort_params P1).Sorted nameLt :=
    (hs1.and hne1).imp
      (fun h => lt_of_le_of_ne h.1 (fun heq => h.2 (string_toList_injective heq)))
  have hlt2 : (sort_params P2).Sorted nameLt :=
    (hs2.and hne2).imp
      (fun h => lt_of_le_of_ne h.1 (fun heq => h.2 (string_toList_injective heq)))
  exact List.eq_of_perm_of_sorted hp hlt1 hlt2

/-- Building a Python dict from a parameter list with pairwise-distinct
names keeps the list unchanged: every insertion appends a fresh key. -/
theorem dict_items_of_nodup : ∀ (l : List Param) (acc : List Param),
    (∀ p ∈ l, ∀ q ∈ acc, q.1 ≠ p.1) → (l.map Prod.fst).Nodup →
    l.foldl dict_insert acc = acc ++ l := by
  intro l
  induction l with
  | nil => intro acc _ _; simp
  | cons p rest ih =>
    intro acc hdisj hnodup
    have hnotin : acc.any (fun q => q.1 = p.1) = false := by
      simp only [List.any_eq_false, decide_eq_true_eq]
      intro q hq
      exact hdisj p (by simp) q hq
    have hins : dict_insert acc p = acc ++ [p] := by
      simp [dict_insert, hnotin]
    have hnodup' : (rest.map Prod.fst).Nodup := by
      simpa using (List.nodup_cons.mp (by simpa using hnodup)).2
    have hpnotin : p.1 ∉ rest.map Prod.fst :=
      (List.nodup_cons.mp (by simpa using hnodup)).1
    have hdisj' : ∀ x ∈ rest, ∀ q ∈ acc ++ [p], q.1 ≠ x.1 := by
      intro x hx q hq
      rcases List.mem_append.mp hq with hqa | hqp
      · exact hdisj x (by simp [hx]) q hqa
      · have : q = p := by simpa using hqp
        subst this
        intro hcontr
        exact hpnotin (by
          rw [hcontr]
          exact List.mem_map.mpr ⟨x, hx, rfl⟩)
    calc (p :: rest).foldl dict_insert acc
        = rest.foldl dict_insert (dict_insert acc p) := rfl
      _ = rest.foldl dict_insert (acc ++ [p]) := by rw [hins]
      _ = (acc ++ [p]) ++ rest := ih (acc ++ [p]) hdisj' hnodup'
      _ = acc ++ p :: rest := by simp

/-- C3: permuting a parameter list with distinct names (the spec's
invariant on filter parameters) does not change the derived lru_cache
key, because the caller sorts parameters by name before building the
keyword-argument dict; consequently, after one cache-populating count
execution with P1, the call with any permutation P2 is a cache hit
(`false` in the executed flag), so the pair performs at most one
underlying count computation. -/
theorem C3_cache_key_permutation (query date : String) (P1 P2 : List Param)
    (hperm : P1.Perm P2) (hnodup : (P1.map Prod.fst).Nodup) :
    count_cache_key query date P1 = count_cache_key query date P2 ∧
    ∀ (store : String → String → List Param → Except PyExc (List Nat))
      (c c1 : Cache) (v : Nat),
      get_count_cached store c query date P1 = (Except.ok v, c1, true) →
      get_count_cached store c1 query date P2 = (Except.ok v, c1, false) := by
  have hsort : sort_params P1 = sort_params P2 := sort_params_perm_eq P1 P2 hperm hnodup
  have hdict : arguments_dict P1 = arguments_dict P2 := by
    unfold arguments_dict
    rw [hsort]
  have hkey : count_cache_key query date P1 = count_cache_key query date P2 := by
    unfold count_cache_key
    rw [hdict]
  refine ⟨hkey, ?_⟩
  intro store c c1 v h
  unfold get_count_cached at h ⊢
  rw [← hkey, ← hdict]
  dsimp only at h ⊢
  split at h
  · simp at h
  · split at h
    · simp only [Prod.mk.injEq, Except.ok.injEq] at h
      obtain ⟨hv, hc1, -⟩ := h
      have hfind : cache_lookup c1 (count_cache_key query date P1) = some v := by
        rw [← hc1, ← hv]
        simp [cache_lookup, List.find?_cons_of_pos]
      rw [hfind]
    · simp at h

/-- Witness for C3 at a concrete input: the two orderings of
`{@a, @b}` derive the same key, and after the first call populated the
cache the permuted call hits it without executing. -/
theorem C3_cache_key_permutation_witness :
    count_cache_key "q" "2020-11-01" [("@b", "2"), ("@a", "1")] =
      count_cache_key "q" "2020-11-01" [("@a", "1"), ("@b", "2")] ∧
    get_count_cached (fun _ _ _ => Except.ok [7])
      [(("q", "2020-11-01", [("@a", "1"), ("@b", "2")]), 7)]
      "q" "2020-11-01" [("@a", "1"), ("@b", "2")] =
      (Except.ok 7, [(("q", "2020-11-01", [("@a", "1"), ("@b", "2")]), 7)], false) :=
  ⟨(C3_cache_key_permutation "q" "2020-11-01" [("@b", "2"), ("@a", "1")]
      [("@a", "1"), ("@b", "2")] (by decide) (by decide)).1,
   (C3_cache_key_permutation "q" "2020-11-01" [("@b", "2"), ("@a", "1")]
      [("@a", "1"), ("@b", "2")] (by decide) (by decide)).2
     (fun _ _ _ => Except.ok [7]) []
     [(("q", "2020-11-01", [("@a", "1"), ("@b", "2")]), 7)] 7 (by decide)⟩

/-- C9: the count cache memoizes only successful results: a call that
fails leaves the cache unchanged (the failure is not stored) and did
execute the underlying query, and a subsequent call with the same key
executes the underlying count query again rather than replaying the
failure. -/
theorem C9_failure_not_cached
    (store : String → String → List Param → Except PyExc (List Nat))
    (c : Cache) (query date : String) (args : List Param) (e : PyExc)
    (h : (get_count_cached store c query date args).1 = Except.error e) :
    (get_count_cached store c query date args).2.1 = c ∧
    (get_count_cached store c query date args).2.2 = true ∧
    (get_count_cached store
      ((get_count_cached store c query date args).2.1) query date args).2.2 = true := by
  unfold get_count_cached at h ⊢
  dsimp only at h ⊢
  split at h
  · simp at h
  · split at h
    · simp at h
    · simp_all

/-- Witness for C9 at a concrete input: a store whose count query returns
an empty response, so `pop()` raises `IndexError` and `get_count` fails
with `NotAvailable`; the cache stays empty and the repeat call executes
again. -/
theorem C9_failure_not_cached_witness :
    (get_count_cached (fun _ _ _ => Except.ok []) [] "q" "2020-11-01" []).2.1 = [] ∧
    (get_count_cached (fun _ _ _ => Except.ok []) [] "q" "2020-11-01" []).2.2 = true ∧
    (get_count_cached (fun _ _ _ => Except.ok [])
      ((get_count_cached (fun _ _ _ => Except.ok []) [] "q" "2020-11-01" []).2.1)
      "q" "2020-11-01" []).2.2 = true :=
  C9_failure_not_cached (fun _ _ _ => Except.ok []) [] "q" "2020-11-01" []
    PyExc.notAvailable (by decide)

set_option maxRecDepth 200000 in
/-- C5 counterexample: the injected parameter name is one fixed string
(the 6-byte blake2b hex digest of the constant date field name, prefixed),
and nothing prevents a caller-supplied parameter set from already
containing exactly that name: the claimed non-collision fails for the
concrete parameter set binding the injected name itself. -/
theorem C5_counterexample :
    injected_name = "@datecc6e0a1947e6" ∧
    injected_name ∈ ([(injected_name, "2020-11-01")] : List Param).map Prod.fst := by
  refine ⟨by decide, ?_⟩
  simp

set_option maxRecDepth 200000 in
/-- C5 amended: the injected parameter name is the fixed string obtained
by hashing the date field name `DATE_PARAM_NAME` (not the request's
only-latest-by field) with a 6-byte blake2b digest, hex-encoded (12
characters) and prefixed with `@` and the field name; it never equals a
caller-supplied parameter name
unless that name itself ends in the hash-derived suffix. -/
theorem C5_injected_name_no_collision (params : List Param) (p : Param)
    (_hp : p ∈ params) (hsuf : injected_suffix.data.isSuffixOf p.1.data = false) :
    injected_name = "@" ++ DATE_PARAM_NAME ++ injected_suffix ∧
    injected_suffix.length = 12 ∧
    p.1 ≠ injected_name := by
  refine ⟨rfl, by decide, ?_⟩
  intro hc
  have hend : injected_suffix.data.isSuffixOf injected_name.data = true := by decide
  rw [hc] at hsuf
  rw [hsuf] at hend
  exact Bool.false_ne_true hend

set_option maxRecDepth 200000 in
/-- Witness for C5 (amended) at a concrete input: the system's own
`@seriesDate` parameter does not end in the hash suffix and therefore
never collides with the injected name. -/
theorem C5_injected_name_no_collision_witness :
    injected_name = "@" ++ DATE_PARAM_NAME ++ injected_suffix ∧
    injected_suffix.length = 12 ∧
    "@seriesDate" ≠ injected_name :=
  C5_injected_name_no_collision [("@seriesDate", "2020-11-01")]
    ("@seriesDate", "2020-11-01") (by decide) (by decide)

end CovidApi
